import Mathlib

/-!
Verification of the Video Elicitation Annotation Tool backend
(`src/backend` of Somekindofa/video_elicitation_annotation_tool).

The development shallowly embeds the parts of the backend that the
specification's claims are about:

* the byte-range video delivery of `get_video_file` (`main.py` 245-315),
* the background transcription / enrichment pipeline
  (`process_transcription`, `process_extended_transcript`,
  `main.py` 713-847) together with `llm_service.generate_extended_transcript`,
* the partial-update semantics of `database.update_annotation`
  (`database.py` 125-139),
* the WebSocket broadcast loop of `ConnectionManager.broadcast`
  (`main.py` 69-75),
* the deletion endpoints `delete_video` (`main.py` 352-382) and
  `delete_project` (`main.py` 622-640).

File bytes are modelled as natural numbers, file contents as lists of
bytes, database rows as Lean structures, and the fire-and-forget
background tasks as functions from the outcomes of their external
collaborators (transcription API, LLM API, WebSocket sends) to the
sequence of state transitions and broadcast events they perform.
-/

namespace VideoTool

/-! ## Byte-range delivery (`get_video_file`, `main.py` 245-315)

`main.py` 268-270 splits the `Range` header on `"-"` after stripping
`"bytes="` and parses each side with `int(...)`, defaulting a missing
start to `0` and a missing end to `file_size - 1`.  A parsed header is
therefore a pair of optional natural numbers. -/

/-- The two sides of a `bytes=<start>-<end>` Range header after the
split performed at `main.py` 268: `none` models an empty side. -/
structure RangeHeader where
  startPart : Option Nat
  endPart : Option Nat
deriving DecidableEq, Repr

/-- Responses `get_video_file` can produce once the video row and its
backing file exist: a raised `HTTPException` (status, detail), a 206
`StreamingResponse` carrying its headers and the streamed chunks, or the
plain `FileResponse` used when no Range header is present. -/
inductive VideoFileResponse where
  | httpError (status : Nat) (detail : String)
  | ranged (status : Nat) (contentRange acceptRanges contentLength contentType : String)
      (chunks : List (List Nat))
  | fullFile (acceptRanges : String)
deriving DecidableEq, Repr

/-- `f.seek(pos)` followed by `f.read(n)`: the next `n` bytes of `file`
starting at `pos`, clipped at end of file. -/
def fileRead (file : List Nat) (pos n : Nat) : List Nat :=
  (file.drop pos).take n

/-- The `while remaining > 0` loop of `iter_file` (`main.py` 279-289):
seek to `pos`, repeatedly read `min(8192, remaining)` bytes, stop on an
empty read, and decrement `remaining` by the number of bytes obtained.
`fuel` only bounds the number of iterations; every executed iteration
consumes at least one byte of `remaining`, so `remaining.toNat`
iterations always suffice (see `iter_file`). -/
def iterFileAux (file : List Nat) : Nat → Nat → Int → List (List Nat)
  | 0, _, _ => []
  | fuel + 1, pos, remaining =>
    if remaining > 0 then
      let data := fileRead file pos (min 8192 remaining).toNat
      if data.isEmpty then []
      else data :: iterFileAux file fuel (pos + data.length) (remaining - data.length)
    else []

/-- The chunk generator `iter_file` of `get_video_file` (`main.py`
279-289), as the list of chunks it yields. -/
def iter_file (file : List Nat) (pos : Nat) (remaining : Int) : List (List Nat) :=
  iterFileAux file remaining.toNat pos remaining

/-- `start = int(range_match[0]) if range_match[0] else 0`
(`main.py` 269). -/
def parsedStart (r : RangeHeader) : Int :=
  match r.startPart with
  | some s => (s : Int)
  | none => 0

/-- `end = int(range_match[1]) if ... else file_size - 1`
(`main.py` 270). -/
def parsedEnd (fileSize : Nat) (r : RangeHeader) : Int :=
  match r.endPart with
  | some e => (e : Int)
  | none => (fileSize : Int) - 1

/-- `get_video_file` (`main.py` 245-315) on a video whose row and
backing file exist, as a function of the file bytes, the stored MIME
type, and the parsed Range header (`none`: no `Range` header was sent).
Mirrors lines 261-309: compute `file_size`, default missing header
sides, reject with a 416 `HTTPException` when `start >= file_size or
end >= file_size`, otherwise stream `chunk_size = end - start + 1`
bytes from `start` with the four headers of lines 291-296. -/
def get_video_file (file : List Nat) (mimeType : Option String)
    (range : Option RangeHeader) : VideoFileResponse :=
  match range with
  | none => .fullFile "bytes"
  | some r =>
    if parsedStart r ≥ (file.length : Int) ∨ parsedEnd file.length r ≥ (file.length : Int) then
      .httpError 416 "Range not satisfiable"
    else
      .ranged 206
        ("bytes " ++ toString (parsedStart r) ++ "-" ++ toString (parsedEnd file.length r)
          ++ "/" ++ toString file.length)
        "bytes"
        (toString (parsedEnd file.length r - parsedStart r + 1))
        (mimeType.getD "video/mp4")
        (iter_file file (parsedStart r).toNat (parsedEnd file.length r - parsedStart r + 1))

theorem toString_int_ofNat (n : Nat) : toString ((n : Nat) : Int) = toString n := rfl

theorem parsedStart_eq (r : RangeHeader) :
    parsedStart r = ((r.startPart.getD 0 : Nat) : Int) := by
  unfold parsedStart
  cases r.startPart <;> rfl

theorem parsedEnd_eq (fileSize : Nat) (r : RangeHeader) (h : 1 ≤ fileSize) :
    parsedEnd fileSize r = ((r.endPart.getD (fileSize - 1) : Nat) : Int) := by
  unfold parsedEnd
  cases r.endPart with
  | none => simp only [Option.getD_none]; omega
  | some e => rfl

/-- Concatenating the yielded chunks gives exactly the slice of
`remaining.toNat` bytes starting at `pos`, for any sufficient fuel. -/
theorem iterFileAux_flatten (file : List Nat) :
    ∀ (fuel pos : Nat) (remaining : Int), remaining.toNat ≤ fuel →
      (iterFileAux file fuel pos remaining).flatten =
        (file.drop pos).take remaining.toNat := by
  intro fuel
  induction fuel with
  | zero =>
    intro pos remaining h
    have h0 : remaining.toNat = 0 := Nat.le_zero.mp h
    simp [iterFileAux, h0]
  | succ fuel ih =>
    intro pos remaining h
    rw [iterFileAux]
    by_cases hr : remaining > 0
    · simp only [hr, if_true]
      have hminpos : (0 : Int) < min 8192 remaining := lt_min (by norm_num) hr
      have hmin8 : min 8192 remaining ≤ 8192 := min_le_left _ _
      have hminr : min 8192 remaining ≤ remaining := min_le_right _ _
      have hrn : 1 ≤ (min 8192 remaining).toNat := by omega
      have hrle : (min 8192 remaining).toNat ≤ remaining.toNat := by omega
      have hdlen : (fileRead file pos (min 8192 remaining).toNat).length
          = min (min 8192 remaining).toNat (file.drop pos).length := by
        simp [fileRead]
      cases hdata : (fileRead file pos (min 8192 remaining).toNat).isEmpty with
      | true =>
        simp only [if_true]
        have hnil : file.drop pos = [] := by
          have hempty : fileRead file pos (min 8192 remaining).toNat = [] :=
            List.isEmpty_iff.mp hdata
          unfold fileRead at hempty
          rcases List.take_eq_nil_iff.mp hempty with h1 | h1
          · omega
          · exact h1
        simp [hnil]
      | false =>
        simp only [Bool.false_eq_true, if_false, List.flatten_cons]
        have hne : fileRead file pos (min 8192 remaining).toNat ≠ [] := by
          intro hcontra
          rw [hcontra] at hdata
          simp at hdata
        have hdpos : 0 < (fileRead file pos (min 8192 remaining).toNat).length :=
          List.length_pos.mpr hne
        set d := (fileRead file pos (min 8192 remaining).toNat).length with hd
        have hdle : d ≤ remaining.toNat := by omega
        rw [ih (pos + d) (remaining - (d : Int)) (by omega)]
        have h1 : List.drop (pos + d) file = (List.drop pos file).drop d := by
          rw [List.drop_drop]
        have h2 : (remaining - (d : Int)).toNat = remaining.toNat - d := by omega
        rw [h2, h1]
        conv_rhs => rw [show remaining.toNat = d + (remaining.toNat - d) by omega]
        rw [List.take_add]
        congr 1
        show fileRead file pos (min 8192 remaining).toNat = (List.drop pos file).take d
        unfold fileRead
        apply List.take_eq_take.mpr
        omega
    · simp only [hr, if_false]
      have : remaining.toNat = 0 := by omega
      simp [this]

/-- Every chunk the loop yields is nonempty and holds at most 8192
bytes (the `read_size = min(8192, remaining)` bound of `main.py` 284). -/
theorem iterFileAux_chunk_bound (file : List Nat) :
    ∀ (fuel pos : Nat) (remaining : Int),
      ∀ c ∈ iterFileAux file fuel pos remaining, c ≠ [] ∧ c.length ≤ 8192 := by
  intro fuel
  induction fuel with
  | zero =>
    intro pos remaining c hc
    simp [iterFileAux] at hc
  | succ fuel ih =>
    intro pos remaining c hc
    rw [iterFileAux] at hc
    by_cases hr : remaining > 0
    · simp only [hr, if_true] at hc
      cases hdata : (fileRead file pos (min 8192 remaining).toNat).isEmpty with
      | true => simp [hdata] at hc
      | false =>
        simp only [hdata, Bool.false_eq_true, if_false, List.mem_cons] at hc
        rcases hc with hceq | hcmem
        · subst hceq
          constructor
          · intro hcontra
            rw [hcontra] at hdata
            simp at hdata
          · have hle : (fileRead file pos (min 8192 remaining).toNat).length
                ≤ (min 8192 remaining).toNat := by
              unfold fileRead
              simp
            have : min 8192 remaining ≤ 8192 := min_le_left _ _
            omega
        · exact ih _ _ c hcmem
    · simp [hr] at hc

/-- The chunks of `iter_file` concatenate to exactly the slice of
`remaining.toNat` bytes starting at `pos`; the loop never reads past
the requested window. -/
theorem iter_file_flatten (file : List Nat) (pos : Nat) (remaining : Int) :
    (iter_file file pos remaining).flatten = (file.drop pos).take remaining.toNat :=
  iterFileAux_flatten file _ pos remaining le_rfl

/-- With a nonpositive byte budget the `while remaining > 0` loop of
`iter_file` yields nothing. -/
theorem iter_file_nonpos (file : List Nat) (pos : Nat) (remaining : Int)
    (h : remaining ≤ 0) : iter_file file pos remaining = [] := by
  unfold iter_file
  rw [show remaining.toNat = 0 by omega]
  rfl

/-- C1: for a video whose backing file exists with total size `S` and a
`bytes=<start>-<end>` Range header (missing start taken as `0`, missing
end as `S-1`) with effective `0 ≤ start ≤ end < S`, `get_video_file`
answers 206 with `Content-Range: bytes <start>-<end>/<S>`,
`Accept-Ranges: bytes`, `Content-Length: end-start+1`, and a body that
is exactly bytes `start..end` of the file, yielded in nonempty chunks
of at most 8192 bytes. -/
theorem get_video_file_valid_range (file : List Nat) (mime : Option String)
    (r : RangeHeader)
    (hse : r.startPart.getD 0 ≤ r.endPart.getD (file.length - 1))
    (heS : r.endPart.getD (file.length - 1) < file.length) :
    ∃ chunks : List (List Nat),
      get_video_file file mime (some r) =
        .ranged 206
          ("bytes " ++ toString (r.startPart.getD 0) ++ "-"
            ++ toString (r.endPart.getD (file.length - 1)) ++ "/"
            ++ toString file.length)
          "bytes"
          (toString (r.endPart.getD (file.length - 1) - r.startPart.getD 0 + 1))
          (mime.getD "video/mp4") chunks
      ∧ chunks.flatten =
          (file.drop (r.startPart.getD 0)).take
            (r.endPart.getD (file.length - 1) - r.startPart.getD 0 + 1)
      ∧ chunks.flatten.length =
          r.endPart.getD (file.length - 1) - r.startPart.getD 0 + 1
      ∧ ∀ c ∈ chunks, c ≠ [] ∧ c.length ≤ 8192 := by
  have hS : 1 ≤ file.length := by omega
  set s := r.startPart.getD 0 with hs
  set e := r.endPart.getD (file.length - 1) with he
  have hcs : ((e : Int) - (s : Int) + 1) = ((e - s + 1 : Nat) : Int) := by omega
  refine ⟨iter_file file s ((e : Int) - (s : Int) + 1), ?_, ?_, ?_, ?_⟩
  · simp only [get_video_file]
    rw [parsedStart_eq, parsedEnd_eq file.length r hS, ← hs, ← he]
    rw [if_neg (by omega)]
    rw [show ((s : Nat) : Int).toNat = s from rfl]
    rw [hcs, toString_int_ofNat, toString_int_ofNat, toString_int_ofNat, ← hcs]
  · rw [iter_file_flatten]
    congr 1
    omega
  · rw [iter_file_flatten]
    simp only [List.length_take, List.length_drop]
    omega
  · intro c hc
    exact iterFileAux_chunk_bound file _ _ _ c hc

/-- Witness for C1: a 5-byte file served the range `bytes=1-3` answers
206, `Content-Range: bytes 1-3/5`, `Content-Length: 3`, and exactly the
three requested bytes. -/
theorem get_video_file_valid_range_witness :
    ∃ chunks : List (List Nat),
      get_video_file [10, 20, 30, 40, 50] none
          (some { startPart := some 1, endPart := some 3 }) =
        .ranged 206 "bytes 1-3/5" "bytes" "3" "video/mp4" chunks
      ∧ chunks.flatten = [20, 30, 40]
      ∧ chunks.flatten.length = 3 := by
  obtain ⟨chunks, h1, h2, h3, h4⟩ :=
    get_video_file_valid_range [10, 20, 30, 40, 50] none
      { startPart := some 1, endPart := some 3 } (by decide) (by decide)
  exact ⟨chunks, h1, h2, h3⟩

/-- C2: whenever the effective start or effective end of the requested
range is at least the file size, `get_video_file` raises the 416
"Range not satisfiable" `HTTPException` and computes no body slice. -/
theorem get_video_file_range_unsatisfiable (file : List Nat) (mime : Option String)
    (r : RangeHeader)
    (h : file.length ≤ r.startPart.getD 0 ∨
         file.length ≤ r.endPart.getD (file.length - 1)) :
    get_video_file file mime (some r) = .httpError 416 "Range not satisfiable" := by
  have hcond : parsedStart r ≥ (file.length : Int) ∨
      parsedEnd file.length r ≥ (file.length : Int) := by
    rw [parsedStart_eq]
    rcases h with h | h
    · left; omega
    · by_cases hS : 1 ≤ file.length
      · right
        rw [parsedEnd_eq _ _ hS]
        omega
      · left; omega
  simp only [get_video_file]
  rw [if_pos hcond]

/-- Witness for C2: `bytes=0-5` on a 3-byte file is rejected with 416. -/
theorem get_video_file_range_unsatisfiable_witness :
    get_video_file [1, 2, 3] none (some { startPart := some 0, endPart := some 5 }) =
      .httpError 416 "Range not satisfiable" :=
  get_video_file_range_unsatisfiable [1, 2, 3] none
    { startPart := some 0, endPart := some 5 } (by decide)

/-- C10: `get_video_file` never validates `start ≤ end`.  For
`bytes=<start>-<end>` with `end < start` and both in bounds, it answers
206 with `Content-Range: bytes <start>-<end>/<S>`, a declared
`Content-Length` of `end-start+1` (zero or negative), and an empty body:
the chunk loop reads nothing because its byte budget is nonpositive. -/
theorem get_video_file_inverted_range (file : List Nat) (mime : Option String)
    (s e : Nat) (hes : e < s) (hsS : s < file.length) :
    get_video_file file mime (some { startPart := some s, endPart := some e }) =
      .ranged 206
        ("bytes " ++ toString s ++ "-" ++ toString e ++ "/" ++ toString file.length)
        "bytes" (toString ((e : Int) - (s : Int) + 1)) (mime.getD "video/mp4") []
    ∧ (e : Int) - (s : Int) + 1 ≤ 0 := by
  constructor
  · simp only [get_video_file]
    have hps : parsedStart { startPart := some s, endPart := some e } = (s : Int) := rfl
    have hpe : parsedEnd file.length { startPart := some s, endPart := some e }
        = (e : Int) := rfl
    rw [hps, hpe, if_neg (by omega), iter_file_nonpos _ _ _ (by omega),
      toString_int_ofNat, toString_int_ofNat]
  · omega

/-- Witness for C10: `bytes=3-1` on a 5-byte file yields 206 with
`Content-Length: -1` and an empty body. -/
theorem get_video_file_inverted_range_witness :
    get_video_file [1, 2, 3, 4, 5] none
        (some { startPart := some 3, endPart := some 1 }) =
      .ranged 206 "bytes 3-1/5" "bytes" "-1" "video/mp4" []
    ∧ (1 : Int) - (3 : Int) + 1 ≤ 0 :=
  get_video_file_inverted_range [1, 2, 3, 4, 5] none 3 1 (by decide) (by decide)

/-! ## Annotation rows and partial updates (`models.py` 48-68,
`models.py` 135-142, `database.py` 125-139)

`start_time`/`end_time` are SQL floats; they enter the claims below only
as opaque stored data, so they are modelled as integers.  `created_at`
and `updated_at` are clock readings modelled as natural numbers; the
value `datetime.utcnow()` produces at `database.py` 136 is passed in
explicitly as `now`. -/

/-- One row of the `annotations` table (`models.py` 48-68). -/
structure Annotation where
  id : Nat
  video_id : Nat
  start_time : Int
  end_time : Int
  audio_filename : String
  audio_filepath : String
  transcription : Option String
  transcription_status : String
  extended_transcript : Option String
  extended_transcript_status : String
  feedback : Option Int
  feedback_choices : Option String
  created_at : Nat
  updated_at : Nat
deriving DecidableEq, Repr

/-- The `AnnotationUpdate` schema (`models.py` 135-142).  The outer
`Option` on each field models presence in
`model_dump(exclude_unset=True)` (`database.py` 133): `none` means the
caller did not supply the field, `some v` means the field was supplied
with value `v` (at the column's type). -/
structure AnnotationUpdate where
  transcription : Option (Option String) := none
  transcription_status : Option String := none
  extended_transcript : Option (Option String) := none
  extended_transcript_status : Option String := none
  feedback : Option (Option Int) := none
  feedback_choices : Option (Option String) := none
deriving DecidableEq, Repr

/-- `database.update_annotation` (`database.py` 125-139) on the row it
found: `setattr` each supplied field, then unconditionally stamp
`updated_at = datetime.utcnow()` (line 136). -/
def update_annotation_row (a : Annotation) (u : AnnotationUpdate) (now : Nat) : Annotation :=
  { a with
    transcription := u.transcription.getD a.transcription
    transcription_status := u.transcription_status.getD a.transcription_status
    extended_transcript := u.extended_transcript.getD a.extended_transcript
    extended_transcript_status := u.extended_transcript_status.getD a.extended_transcript_status
    feedback := u.feedback.getD a.feedback
    feedback_choices := u.feedback_choices.getD a.feedback_choices
    updated_at := now }

/-- A concrete stored annotation used as counterexample input. -/
def sampleAnnotationRow : Annotation where
  id := 1
  video_id := 1
  start_time := 2
  end_time := 5
  audio_filename := "annotation_a.wav"
  audio_filepath := "data/audio/annotation_a.wav"
  transcription := some "hello"
  transcription_status := "completed"
  extended_transcript := none
  extended_transcript_status := "pending"
  feedback := none
  feedback_choices := none
  created_at := 0
  updated_at := 0

/-- Counterexample to C7 as stated: an update that supplies no field at
all still mutates the record, because `database.py` 136 unconditionally
stamps `updated_at = datetime.utcnow()`.  With the clock at `1`, the
no-change update of `sampleAnnotationRow` (whose `updated_at` is `0`) does
not leave the record byte-identical. -/
theorem update_annotation_empty_changes_record :
    ({} : AnnotationUpdate).transcription = none
    ∧ ({} : AnnotationUpdate).transcription_status = none
    ∧ ({} : AnnotationUpdate).extended_transcript = none
    ∧ ({} : AnnotationUpdate).extended_transcript_status = none
    ∧ ({} : AnnotationUpdate).feedback = none
    ∧ ({} : AnnotationUpdate).feedback_choices = none
    ∧ update_annotation_row sampleAnnotationRow {} 1 ≠ sampleAnnotationRow := by
  refine ⟨rfl, rfl, rfl, rfl, rfl, rfl, ?_⟩
  decide

/-- C7 amended: `update_annotation_row` changes exactly the supplied fields
plus the `updated_at` timestamp, which is refreshed on every call; every
other omitted field is left untouched, and repeating the same update is
idempotent on everything but `updated_at`. -/
theorem update_annotation_partial_fields (a : Annotation) (u : AnnotationUpdate) (now : Nat) :
    (update_annotation_row a u now).id = a.id
    ∧ (update_annotation_row a u now).video_id = a.video_id
    ∧ (update_annotation_row a u now).start_time = a.start_time
    ∧ (update_annotation_row a u now).end_time = a.end_time
    ∧ (update_annotation_row a u now).audio_filename = a.audio_filename
    ∧ (update_annotation_row a u now).audio_filepath = a.audio_filepath
    ∧ (update_annotation_row a u now).created_at = a.created_at
    ∧ (u.transcription = none →
        (update_annotation_row a u now).transcription = a.transcription)
    ∧ (∀ v, u.transcription = some v → (update_annotation_row a u now).transcription = v)
    ∧ (u.transcription_status = none →
        (update_annotation_row a u now).transcription_status = a.transcription_status)
    ∧ (∀ v, u.transcription_status = some v →
        (update_annotation_row a u now).transcription_status = v)
    ∧ (u.extended_transcript = none →
        (update_annotation_row a u now).extended_transcript = a.extended_transcript)
    ∧ (∀ v, u.extended_transcript = some v →
        (update_annotation_row a u now).extended_transcript = v)
    ∧ (u.extended_transcript_status = none →
        (update_annotation_row a u now).extended_transcript_status
          = a.extended_transcript_status)
    ∧ (∀ v, u.extended_transcript_status = some v →
        (update_annotation_row a u now).extended_transcript_status = v)
    ∧ (u.feedback = none → (update_annotation_row a u now).feedback = a.feedback)
    ∧ (∀ v, u.feedback = some v → (update_annotation_row a u now).feedback = v)
    ∧ (u.feedback_choices = none →
        (update_annotation_row a u now).feedback_choices = a.feedback_choices)
    ∧ (∀ v, u.feedback_choices = some v →
        (update_annotation_row a u now).feedback_choices = v)
    ∧ (update_annotation_row a u now).updated_at = now
    ∧ update_annotation_row (update_annotation_row a u now) u now = update_annotation_row a u now := by
  unfold update_annotation_row
  refine ⟨rfl, rfl, rfl, rfl, rfl, rfl, rfl, ?_, ?_, ?_, ?_, ?_, ?_, ?_, ?_, ?_, ?_, ?_, ?_,
    rfl, ?_⟩
  all_goals
    first
    | (intro h; simp [h])
    | (intro v h; simp [h])
    | (cases hu1 : u.transcription <;>
        cases hu2 : u.transcription_status <;>
        cases hu3 : u.extended_transcript <;>
        cases hu4 : u.extended_transcript_status <;>
        cases hu5 : u.feedback <;>
        cases hu6 : u.feedback_choices <;>
        simp [hu1, hu2, hu3, hu4, hu5, hu6])

/-- Witness for the amended C7 at a concrete update: only
`transcription_status` (the supplied field) and `updated_at` change. -/
theorem update_annotation_partial_fields_witness :
    (update_annotation_row sampleAnnotationRow { transcription_status := some "failed" } 7).id
        = sampleAnnotationRow.id
    ∧ (update_annotation_row sampleAnnotationRow { transcription_status := some "failed" } 7
        ).transcription = sampleAnnotationRow.transcription
    ∧ (update_annotation_row sampleAnnotationRow { transcription_status := some "failed" } 7
        ).transcription_status = "failed"
    ∧ (update_annotation_row sampleAnnotationRow { transcription_status := some "failed" } 7
        ).updated_at = 7 := by
  obtain ⟨h1, _, _, _, _, _, _, h8, _, _, h11, _, _, _, _, _, _, _, _, h20, _⟩ :=
    update_annotation_partial_fields sampleAnnotationRow
      { transcription_status := some "failed" } 7
  exact ⟨h1, h8 rfl, h11 "failed" rfl, h20⟩

/-! ## LLM enrichment collaborator (`llm_service.py` 43-123)

`generate_extended_transcript` is a function of the configured API key,
the transcription text, and the outcome of the single HTTP POST to the
completions endpoint (a network-level exception or a response with a
status code and an optional `choices` array). -/

/-- One entry of the `choices` array of the LLM response; `textField`
models `choices[0].get("text", "")`s underlying optional key. -/
structure LLMChoice where
  textField : Option String
deriving DecidableEq, Repr

/-- The parsed LLM HTTP response: status code, and the `choices` key
(`none` when absent) with its array. -/
structure LLMResponse where
  status : Nat
  choices : Option (List LLMChoice)
deriving DecidableEq, Repr

/-- Environment of one `generate_extended_transcript` call: whether
`FIREWORKS_API_KEY` is set, and the outcome of the POST
(`.error`: an `aiohttp` exception was raised). -/
structure LLMEnv where
  hasApiKey : Bool
  response : Except String LLMResponse
deriving Repr

/-- `llm_service.generate_extended_transcript` (`llm_service.py`
43-123): returns `none` when the API key is missing (line 54), the
transcription is empty/blank (line 58), the POST raises (lines
118-123), the status is not 200 (line 97), the `choices` array is
missing or empty (line 114), or the stripped generated text is empty
(line 112); otherwise returns the stripped text. -/
def generate_extended_transcript (env : LLMEnv) (transcription : String) : Option String :=
  if !env.hasApiKey then none
  else if transcription.trim = "" then none
  else
    match env.response with
    | .error _ => none
    | .ok resp =>
      if resp.status ≠ 200 then none
      else
        match resp.choices with
        | some (c :: _) =>
          let extendedText := (c.textField.getD "").trim
          if extendedText = "" then none else some extendedText
        | _ => none

theorem generate_extended_transcript_ne_empty (env : LLMEnv) (t s : String)
    (h : generate_extended_transcript env t = some s) : s ≠ "" := by
  intro hs
  subst hs
  unfold generate_extended_transcript at h
  repeat' split at h
  all_goals simp_all

/-! ## Background task pipeline (`main.py` 713-847)

Each task is modelled as a function from the outcomes of its external
collaborators to the ordered list of observable steps it performs plus
its exception outcome (`Except`): a task body that raises hands the
exception to the surrounding `try`/`except`.  Database updates are the
state transitions of the model itself and are treated as reliable;
`manager.broadcast` catches per-connection errors itself (`main.py`
71-75), but the failure handlers' own notification step is given an
oracle for raising, which the bare `except: pass` swallows. -/

/-- Observable steps a background task performs, in program order: a
partial row update through `db.update_annotation`, a
`manager.broadcast` with the given message type, or the
`asyncio.create_task(process_extended_transcript(...))` spawn at
`main.py` 758. -/
inductive Event where
  | updateAnn (u : AnnotationUpdate)
  | broadcastMsg (msgType : String)
  | spawnEnrichment (transcription : String)
deriving DecidableEq, Repr

/-- Environment of one `process_transcription` run: the outcome of
`transcribe_audio_simple` (`main.py` 734; text, or the raised
exception's message), and whether the failure handler's notification
step (`main.py` 772-776) itself raises (`some msg`). -/
structure TransEnv where
  transcribeResult : Except String String
  notifyErrorRaises : Option String

/-- The `try` body of `process_transcription` (`main.py` 715-758):
set `processing` and broadcast, call the transcription collaborator,
then on success store the text, set `completed`, broadcast, and spawn
the enrichment task; a collaborator exception propagates out. -/
def transcriptionBody (env : TransEnv) : List Event × Except String Unit :=
  let evs0 : List Event := [.updateAnn { transcription_status := some "processing" },
    .broadcastMsg "transcription_status"]
  match env.transcribeResult with
  | .error e => (evs0, .error e)
  | .ok t =>
    (evs0 ++ [.updateAnn { transcription := some (some t)
                           transcription_status := some "completed" },
      .broadcastMsg "transcription_complete", .spawnEnrichment t], .ok ())

/-- `process_transcription` (`main.py` 713-778): the body wrapped in
`try`/`except` whose handler sets `failed`, broadcasts
`transcription_error`, and swallows (`except: pass`, lines 777-778) any
error the notification step raises. -/
def process_transcription (env : TransEnv) : List Event × Except String Unit :=
  match transcriptionBody env with
  | (evs, .ok _) => (evs, .ok ())
  | (evs, .error _) =>
    let evs2 := evs ++ [.updateAnn { transcription_status := some "failed" }]
    match env.notifyErrorRaises with
    | some _ => (evs2, .ok ())
    | none => (evs2 ++ [.broadcastMsg "transcription_error"], .ok ())

/-- Environment of one `process_extended_transcript` run: the LLM call
environment and the raise-oracle for the failure handler's
notification step (`main.py` 841-845). -/
structure EnrichEnv where
  llm : LLMEnv
  notifyErrorRaises : Option String

/-- The `try` body of `process_extended_transcript` (`main.py`
785-827): set `processing` and broadcast, call
`generate_extended_transcript`, and store/complete on a truthy result,
else `raise Exception("LLM returned no extended transcript")`. -/
def extendedTranscriptBody (env : EnrichEnv) (t : String) : List Event × Except String Unit :=
  let evs0 : List Event := [.updateAnn { extended_transcript_status := some "processing" },
    .broadcastMsg "extended_transcript_status"]
  match generate_extended_transcript env.llm t with
  | some ext =>
    if ext.isEmpty then (evs0, .error "LLM returned no extended transcript")
    else (evs0 ++ [.updateAnn { extended_transcript := some (some ext)
                                extended_transcript_status := some "completed" },
      .broadcastMsg "extended_transcript_complete"], .ok ())
  | none => (evs0, .error "LLM returned no extended transcript")

/-- `process_extended_transcript` (`main.py` 781-847): the body wrapped
in `try`/`except` whose handler sets `failed`, broadcasts
`extended_transcript_error`, and swallows (`except: pass`, lines
846-847) any error the notification step raises. -/
def process_extended_transcript (env : EnrichEnv) (t : String) : List Event × Except String Unit :=
  match extendedTranscriptBody env t with
  | (evs, .ok _) => (evs, .ok ())
  | (evs, .error _) =>
    let evs2 := evs ++ [.updateAnn { extended_transcript_status := some "failed" }]
    match env.notifyErrorRaises with
    | some _ => (evs2, .ok ())
    | none => (evs2 ++ [.broadcastMsg "extended_transcript_error"], .ok ())

/-- The transcriptions handed to `asyncio.create_task` spawns inside a
list of events. -/
def spawnedTranscripts (evs : List Event) : List String :=
  evs.filterMap fun ev =>
    match ev with
    | .spawnEnrichment t => some t
    | _ => none

/-- The complete event sequence of one annotation's lifecycle: the
transcription task, followed by the enrichment task for each spawn it
performed (the two tasks of one annotation are strictly sequential:
the spawn is the transcription task's last step). -/
def runPipeline (envT : TransEnv) (envE : EnrichEnv) : List Event :=
  (process_transcription envT).1
    ++ (spawnedTranscripts (process_transcription envT).1).flatMap
        (fun t => (process_extended_transcript envE t).1)

/-- The database row after one observable step (broadcasts and spawns
do not touch the row; the clock argument of `update_annotation_row` is
irrelevant to the status fields and fixed at `0`). -/
def applyEvent (a : Annotation) : Event → Annotation
  | .updateAnn u => update_annotation_row a u 0
  | .broadcastMsg _ => a
  | .spawnEnrichment _ => a

/-- Every intermediate database row along an event sequence, the
initial row included. -/
def traceStates (a : Annotation) : List Event → List Annotation
  | [] => [a]
  | ev :: evs => a :: traceStates (applyEvent a ev) evs

/-- The database row after a whole event sequence. -/
def finalState (a : Annotation) (evs : List Event) : Annotation :=
  evs.foldl applyEvent a

/-- The enrichment task never spawns anything itself. -/
theorem spawn_not_in_enrichment (env : EnrichEnv) (t s : String) :
    Event.spawnEnrichment s ∉ (process_extended_transcript env t).1 := by
  obtain ⟨llm, notifE⟩ := env
  cases hg : generate_extended_transcript llm t with
  | none =>
    cases notifE <;> simp [process_extended_transcript, extendedTranscriptBody, hg]
  | some ext =>
    cases hemp : ext.isEmpty <;> cases notifE <;>
      simp [process_extended_transcript, extendedTranscriptBody, hg, hemp]

/-- C3: along one annotation's lifecycle (starting from its creation
state, where the enrichment track is `pending`), the enrichment track
is never `processing` while the transcription track is not `completed`,
and the enrichment spawn happens only after the transcription track has
been written `completed`: the completed write occurs in the event
sequence before any spawn. -/
theorem enrichment_processing_requires_completed
    (a : Annotation) (envT : TransEnv) (envE : EnrichEnv)
    (hext : a.extended_transcript_status = "pending") :
    (∀ st ∈ traceStates a (runPipeline envT envE),
        st.extended_transcript_status = "processing" →
          st.transcription_status = "completed")
    ∧ (∀ t, Event.spawnEnrichment t ∈ runPipeline envT envE →
        ∃ pre post,
          runPipeline envT envE =
            pre ++ Event.updateAnn { transcription := some (some t)
                                     transcription_status := some "completed" } :: post
          ∧ ∀ s, Event.spawnEnrichment s ∉ pre) := by
  obtain ⟨tr, notifT⟩ := envT
  obtain ⟨llm, notifE⟩ := envE
  constructor
  · cases tr with
    | error e =>
      cases notifT <;>
        simp [runPipeline, process_transcription, transcriptionBody, spawnedTranscripts,
          traceStates, applyEvent, update_annotation_row, List.forall_mem_cons, hext]
    | ok t =>
      cases hg : generate_extended_transcript llm t with
      | none =>
        cases notifT <;> cases notifE <;>
          simp [runPipeline, process_transcription, transcriptionBody,
            process_extended_transcript, extendedTranscriptBody, hg, spawnedTranscripts,
            traceStates, applyEvent, update_annotation_row, List.forall_mem_cons, hext]
      | some ext =>
        cases hemp : ext.isEmpty <;> cases notifT <;> cases notifE <;>
          simp [runPipeline, process_transcription, transcriptionBody,
            process_extended_transcript, extendedTranscriptBody, hg, hemp,
            spawnedTranscripts, traceStates, applyEvent, update_annotation_row,
            List.forall_mem_cons, hext]
  · intro t ht
    cases tr with
    | error e =>
      cases notifT <;>
        simp [runPipeline, process_transcription, transcriptionBody,
          spawnedTranscripts] at ht
    | ok t0 =>
      have hred : t = t0 ∨ Event.spawnEnrichment t ∈
          (process_extended_transcript ⟨llm, notifE⟩ t0).1 := by
        simpa [runPipeline, process_transcription, transcriptionBody,
          spawnedTranscripts] using ht
      rcases hred with rfl | hbad
      · refine ⟨[.updateAnn { transcription_status := some "processing" },
            .broadcastMsg "transcription_status"],
          [Event.broadcastMsg "transcription_complete", Event.spawnEnrichment t]
            ++ (process_extended_transcript ⟨llm, notifE⟩ t).1, ?_, ?_⟩
        · simp [runPipeline, process_transcription, transcriptionBody, spawnedTranscripts]
        · intro s
          simp
      · exact absurd hbad (spawn_not_in_enrichment _ _ _)

/-- Witness for C3: a successful transcription of `"bonjour"` followed
by a successful enrichment. -/
theorem enrichment_processing_requires_completed_witness :
    (∀ st ∈ traceStates sampleAnnotationRow
        (runPipeline { transcribeResult := .ok "bonjour", notifyErrorRaises := none }
          { llm := { hasApiKey := true,
                     response := .ok { status := 200,
                                       choices := some [{ textField := some "enrichi" }] } },
            notifyErrorRaises := none }),
        st.extended_transcript_status = "processing" →
          st.transcription_status = "completed")
    ∧ (∀ t, Event.spawnEnrichment t ∈
          runPipeline { transcribeResult := .ok "bonjour", notifyErrorRaises := none }
            { llm := { hasApiKey := true,
                       response := .ok { status := 200,
                                         choices := some [{ textField := some "enrichi" }] } },
              notifyErrorRaises := none } →
        ∃ pre post,
          runPipeline { transcribeResult := .ok "bonjour", notifyErrorRaises := none }
              { llm := { hasApiKey := true,
                         response := .ok { status := 200,
                                           choices := some [{ textField := some "enrichi" }] } },
                notifyErrorRaises := none } =
            pre ++ Event.updateAnn { transcription := some (some t)
                                     transcription_status := some "completed" } :: post
          ∧ ∀ s, Event.spawnEnrichment s ∉ pre) :=
  enrichment_processing_requires_completed sampleAnnotationRow
    { transcribeResult := .ok "bonjour", notifyErrorRaises := none }
    { llm := { hasApiKey := true,
               response := .ok { status := 200,
                                 choices := some [{ textField := some "enrichi" }] } },
      notifyErrorRaises := none }
    rfl

/-- C4: neither background task lets an exception escape to its
spawner: for every collaborator outcome and every behaviour of the
failure handler's notification step, the task returns without raising;
on a body failure it writes the terminal `failed` status, and when the
notification step does not itself raise it also broadcasts the error
event (when it does raise, the bare `except: pass` swallows it). -/
theorem background_tasks_never_escape (envT : TransEnv) (envE : EnrichEnv) (t : String) :
    (process_transcription envT).2 = .ok ()
    ∧ (process_extended_transcript envE t).2 = .ok ()
    ∧ (∀ e, envT.transcribeResult = .error e →
        Event.updateAnn { transcription_status := some "failed" }
            ∈ (process_transcription envT).1
        ∧ (envT.notifyErrorRaises = none →
            Event.broadcastMsg "transcription_error" ∈ (process_transcription envT).1))
    ∧ (generate_extended_transcript envE.llm t = none →
        Event.updateAnn { extended_transcript_status := some "failed" }
            ∈ (process_extended_transcript envE t).1
        ∧ (envE.notifyErrorRaises = none →
            Event.broadcastMsg "extended_transcript_error"
              ∈ (process_extended_transcript envE t).1)) := by
  obtain ⟨tr, notifT⟩ := envT
  obtain ⟨llm, notifE⟩ := envE
  refine ⟨?_, ?_, ?_, ?_⟩
  · cases tr <;> cases notifT <;> simp [process_transcription, transcriptionBody]
  · cases hg : generate_extended_transcript llm t with
    | none =>
      cases notifE <;> simp [process_extended_transcript, extendedTranscriptBody, hg]
    | some ext =>
      cases hemp : ext.isEmpty <;> cases notifE <;>
        simp [process_extended_transcript, extendedTranscriptBody, hg, hemp]
  · intro e he
    subst he
    cases notifT with
    | none =>
      exact ⟨by simp [process_transcription, transcriptionBody],
        fun _ => by simp [process_transcription, transcriptionBody]⟩
    | some m =>
      exact ⟨by simp [process_transcription, transcriptionBody],
        fun h => by simp at h⟩
  · intro hg
    dsimp only at hg
    cases notifE with
    | none =>
      exact ⟨by simp [process_extended_transcript, extendedTranscriptBody, hg],
        fun _ => by simp [process_extended_transcript, extendedTranscriptBody, hg]⟩
    | some m =>
      exact ⟨by simp [process_extended_transcript, extendedTranscriptBody, hg],
        fun h => by simp at h⟩

/-- Transcription run whose collaborator raises, handler notification
healthy. -/
def transEnvConnError : TransEnv where
  transcribeResult := .error "ConnectionError"
  notifyErrorRaises := none

/-- Enrichment run with no API key configured, handler notification
healthy. -/
def enrichEnvNoKey : EnrichEnv where
  llm := { hasApiKey := false, response := .error "unreachable" }
  notifyErrorRaises := none

/-- Witness for C4: a transcription run whose collaborator raises
`ConnectionError` and an enrichment run with no API key both end in
`failed` with an error broadcast, and neither escapes. -/
theorem background_tasks_never_escape_witness :
    (process_transcription transEnvConnError).2 = .ok ()
    ∧ (process_extended_transcript enrichEnvNoKey "txt").2 = .ok ()
    ∧ Event.updateAnn { transcription_status := some "failed" }
        ∈ (process_transcription transEnvConnError).1
    ∧ Event.broadcastMsg "transcription_error"
        ∈ (process_transcription transEnvConnError).1
    ∧ Event.updateAnn { extended_transcript_status := some "failed" }
        ∈ (process_extended_transcript enrichEnvNoKey "txt").1
    ∧ Event.broadcastMsg "extended_transcript_error"
        ∈ (process_extended_transcript enrichEnvNoKey "txt").1 := by
  obtain ⟨h1, h2, h3, h4⟩ :=
    background_tasks_never_escape transEnvConnError enrichEnvNoKey "txt"
  obtain ⟨h3a, h3b⟩ := h3 "ConnectionError" rfl
  obtain ⟨h4a, h4b⟩ := h4 rfl
  exact ⟨h1, h2, h3a, h3b rfl, h4a, h4b rfl⟩

/-- C8: every way the enrichment collaborator can come back empty
(missing API key, network error, non-200 status, missing or empty
`choices`, empty generated text) yields no text; whenever it yields no
text the enrichment track ends `failed`; and the enrichment track is
never `completed` with an empty extended transcript. -/
theorem enrichment_empty_result_fails (a : Annotation) (envE : EnrichEnv) (t : String) :
    (envE.llm.hasApiKey = false → generate_extended_transcript envE.llm t = none)
    ∧ (∀ e, envE.llm.response = .error e →
        generate_extended_transcript envE.llm t = none)
    ∧ (∀ resp, envE.llm.response = .ok resp → resp.status ≠ 200 →
        generate_extended_transcript envE.llm t = none)
    ∧ (∀ resp, envE.llm.response = .ok resp →
        (resp.choices = none ∨ resp.choices = some []) →
        generate_extended_transcript envE.llm t = none)
    ∧ (∀ resp c rest, envE.llm.response = .ok resp → resp.choices = some (c :: rest) →
        (c.textField.getD "").trim = "" →
        generate_extended_transcript envE.llm t = none)
    ∧ (generate_extended_transcript envE.llm t = none →
        (finalState a (process_extended_transcript envE t).1).extended_transcript_status
          = "failed")
    ∧ ((finalState a (process_extended_transcript envE t).1).extended_transcript_status
          = "completed" →
        ∃ s, (finalState a (process_extended_transcript envE t).1).extended_transcript
            = some s ∧ s ≠ "") := by
  obtain ⟨llm, notifE⟩ := envE
  refine ⟨?_, ?_, ?_, ?_, ?_, ?_, ?_⟩
  · intro h
    dsimp only at h
    simp [generate_extended_transcript, h]
  · intro e he
    dsimp only at he
    unfold generate_extended_transcript
    rw [he]
    simp
  · intro resp he hst
    dsimp only at he
    unfold generate_extended_transcript
    rw [he]
    simp [hst]
  · intro resp he hch
    dsimp only at he
    unfold generate_extended_transcript
    rw [he]
    rcases hch with hch | hch <;> simp [hch]
  · intro resp c rest he hch htext
    dsimp only at he
    unfold generate_extended_transcript
    rw [he]
    simp [hch, htext]
  · intro hg
    dsimp only at hg
    cases notifE <;>
      simp [finalState, process_extended_transcript, extendedTranscriptBody, hg,
        applyEvent, update_annotation_row]
  · cases hg : generate_extended_transcript llm t with
    | none =>
      cases notifE <;>
        simp [finalState, process_extended_transcript, extendedTranscriptBody, hg,
          applyEvent, update_annotation_row]
    | some ext =>
      cases hemp : ext.isEmpty with
      | true =>
        cases notifE <;>
          simp [finalState, process_extended_transcript, extendedTranscriptBody, hg, hemp,
            applyEvent, update_annotation_row]
      | false =>
        intro _
        refine ⟨ext, ?_, generate_extended_transcript_ne_empty llm t ext hg⟩
        simp [finalState, process_extended_transcript, extendedTranscriptBody, hg, hemp,
          applyEvent, update_annotation_row]

/-- The LLM call environment of the C8 witness: API key configured but
the completions endpoint answers HTTP 500. -/
def llmEnv500 : LLMEnv where
  hasApiKey := true
  response := .ok { status := 500, choices := none }

/-- The enrichment run environment of the C8 witness. -/
def enrichEnv500 : EnrichEnv where
  llm := llmEnv500
  notifyErrorRaises := none

/-- Witness for C8: a 500 response from the LLM API yields no text and
the enrichment track of `sampleAnnotationRow` ends `failed`. -/
theorem enrichment_empty_result_fails_witness :
    generate_extended_transcript llmEnv500 "txt" = none
    ∧ (finalState sampleAnnotationRow
        (process_extended_transcript enrichEnv500 "txt").1).extended_transcript_status
        = "failed" := by
  obtain ⟨_, _, h3, _, _, h6, _⟩ :=
    enrichment_empty_result_fails sampleAnnotationRow enrichEnv500 "txt"
  have hg : generate_extended_transcript llmEnv500 "txt" = none :=
    h3 { status := 500, choices := none } rfl (by decide)
  exact ⟨hg, h6 hg⟩

/-! ## Notification channel (`ConnectionManager`, `main.py` 56-77) -/

/-- One connected observer during one broadcast: its identity and
whether `send_json` succeeds for this event (a closed connection makes
it raise). -/
structure Observer where
  id : Nat
  sendOk : Bool
deriving DecidableEq, Repr

/-- What happened to one observer during a broadcast: the event was
sent, or the send raised and the error was logged (`main.py` 74-75). -/
inductive Delivery where
  | delivered (id : Nat)
  | loggedError (id : Nat)
deriving DecidableEq, Repr

/-- `ConnectionManager.broadcast` (`main.py` 69-75): iterate the active
connections in order, `send_json` to each inside `try`/`except`; a
raising send is logged and the loop continues with the next
connection. -/
def broadcast : List Observer → List Delivery
  | [] => []
  | c :: rest =>
    (if c.sendOk then Delivery.delivered c.id else Delivery.loggedError c.id)
      :: broadcast rest

theorem broadcast_count_zero (oid : Nat) (conns : List Observer)
    (h : oid ∉ conns.map Observer.id) :
    (broadcast conns).count (Delivery.delivered oid) = 0 := by
  induction conns with
  | nil => rfl
  | cons c rest ih =>
    simp only [List.map_cons, List.mem_cons, not_or] at h
    rw [broadcast]
    by_cases hc : c.sendOk <;>
      simp [hc, List.count_cons, ih h.2, h.1, Ne.symm h.1]

theorem broadcast_count_le_one :
    ∀ (conns : List Observer), (conns.map Observer.id).Nodup →
      ∀ oid, (broadcast conns).count (Delivery.delivered oid) ≤ 1 := by
  intro conns
  induction conns with
  | nil =>
    intro _ oid
    simp [broadcast]
  | cons c rest ih =>
    intro hnodup oid
    simp only [List.map_cons, List.nodup_cons] at hnodup
    rw [broadcast]
    by_cases hc : c.sendOk
    · by_cases hoid : c.id = oid
      · subst hoid
        simp [hc, List.count_cons, broadcast_count_zero c.id rest hnodup.1]
      · have hr := ih hnodup.2 oid
        simp only [hc, if_true, List.count_cons]
        simp [hoid]
        omega
    · have hr := ih hnodup.2 oid
      simp only [hc, if_false, List.count_cons]
      simp
      omega

/-- C9: a broadcast attempts exactly one send per connected observer,
each observer's outcome depends only on its own send (its entry of the
result is the pointwise image of that observer alone, so a failure of
one observer never prevents delivery to the others), every observer
whose own send succeeds receives the event, and — when the connected
observers are distinct — each observer is delivered the event at most
once. -/
theorem broadcast_isolates_failures (conns : List Observer) :
    broadcast conns = conns.map
      (fun c => if c.sendOk then Delivery.delivered c.id else Delivery.loggedError c.id)
    ∧ (broadcast conns).length = conns.length
    ∧ (∀ c ∈ conns, c.sendOk → Delivery.delivered c.id ∈ broadcast conns)
    ∧ ((conns.map Observer.id).Nodup →
        ∀ oid, (broadcast conns).count (Delivery.delivered oid) ≤ 1) := by
  have hmap : broadcast conns = conns.map
      (fun c => if c.sendOk then Delivery.delivered c.id else Delivery.loggedError c.id) := by
    induction conns with
    | nil => rfl
    | cons c rest ih => rw [broadcast, ih, List.map_cons]
  refine ⟨hmap, by rw [hmap, List.length_map], ?_, ?_⟩
  · intro c hc hok
    rw [hmap]
    have := List.mem_map_of_mem
      (fun c => if c.sendOk then Delivery.delivered c.id else Delivery.loggedError c.id) hc
    simpa [hok] using this
  · exact fun hnodup oid => broadcast_count_le_one conns hnodup oid

/-- Witness for C9: three observers, the middle one's connection gone;
the other two still receive the event, one attempt each. -/
theorem broadcast_isolates_failures_witness :
    broadcast [⟨1, true⟩, ⟨2, false⟩, ⟨3, true⟩] =
      [Delivery.delivered 1, Delivery.loggedError 2, Delivery.delivered 3]
    ∧ Delivery.delivered 3 ∈ broadcast [⟨1, true⟩, ⟨2, false⟩, ⟨3, true⟩]
    ∧ (broadcast [⟨1, true⟩, ⟨2, false⟩, ⟨3, true⟩]).count (Delivery.delivered 3) ≤ 1 := by
  obtain ⟨h1, h2, h3, h4⟩ :=
    broadcast_isolates_failures [⟨1, true⟩, ⟨2, false⟩, ⟨3, true⟩]
  exact ⟨h1, h3 ⟨3, true⟩ (by decide) rfl, h4 (by decide) 3⟩

/-! ## Video rows and deletion (`models.py` 29-45, `main.py` 352-382)

The `Video` model in `models.py` 29-45 declares exactly the columns
below and the two relationships `project` and `annotations`; in
particular it declares **no** `is_local` and no `source_type` column
(those exist only as raw database columns added by
`migrate_add_local_columns.py`, which the ORM model does not map). -/

/-- One row of the `videos` table as mapped by `models.py` 29-45. -/
structure Video where
  id : Nat
  project_id : Option Nat
  filename : String
  filepath : String
  duration : Option Int
  file_size : Option Nat
  mime_type : Option String
  batch_position : Option Nat
  uploaded_at : Nat
deriving DecidableEq, Repr

/-- The attribute names a `Video` ORM instance exposes: the mapped
columns of `models.py` 33-41 and the relationships of 43-45.  Python
attribute lookup on any other name raises `AttributeError`. -/
def videoAttrs : List String :=
  ["id", "project_id", "filename", "filepath", "duration", "file_size",
   "mime_type", "batch_position", "uploaded_at", "project", "annotations"]

/-- Outcome of a request handler: a success body or a raised
`HTTPException`. -/
inductive ApiResult where
  | ok (message : String)
  | httpError (status : Nat) (detail : String)
deriving DecidableEq, Repr

/-- Database rows plus the set of paths existing on disk. -/
structure SystemState where
  videos : List Video
  annotations : List Annotation
  disk : List String
deriving DecidableEq, Repr

/-- `delete_video` (`main.py` 352-382).  After the video row is found,
line 364 evaluates `video.is_local` — but `"is_local"` is not among the
attributes the `Video` model maps (`videoAttrs`), so the lookup raises
`AttributeError` before any file or row is removed, and the handler's
`except Exception` (`main.py` 380-382) converts it into an HTTP 500.
No annotation, no audio file, and no video file is deleted. -/
def delete_video (st : SystemState) (vid : Nat) : ApiResult × SystemState :=
  match st.videos.find? (fun v => v.id = vid) with
  | none => (.httpError 404 "Video not found", st)
  | some _ =>
    if videoAttrs.contains "is_local" then
      -- never reached: the shipped model maps no such attribute
      (.ok "Video deleted", st)
    else
      (.httpError 500 "AttributeError: 'Video' object has no attribute 'is_local'", st)

/-- C5's code evaluation: deleting any existing video answers HTTP 500
(the `AttributeError` from `video.is_local`) and leaves every row and
every file in place — it does not remove the video's annotations, their
audio files, or the uploaded backing file, contrary to the claim. -/
theorem delete_video_attribute_error (st : SystemState) (vid : Nat) (v : Video)
    (h : st.videos.find? (fun v => v.id = vid) = some v) :
    delete_video st vid =
      (.httpError 500 "AttributeError: 'Video' object has no attribute 'is_local'", st) := by
  simp [delete_video, h]
  decide

/-- A concrete uploaded video row. -/
def sampleVideo : Video where
  id := 1
  project_id := none
  filename := "v.mp4"
  filepath := "data/videos/v.mp4"
  duration := none
  file_size := some 5
  mime_type := some "video/mp4"
  batch_position := none
  uploaded_at := 0

/-- A concrete state: one uploaded video with one annotation, both
files present on disk. -/
def sampleState : SystemState where
  videos := [sampleVideo]
  annotations := [sampleAnnotationRow]
  disk := ["data/videos/v.mp4", "data/audio/annotation_a.wav"]

/-- Witness for the C5 code evaluation: deleting the video of
`sampleState` returns 500 and the state is unchanged. -/
theorem delete_video_attribute_error_witness :
    delete_video sampleState 1 =
      (.httpError 500 "AttributeError: 'Video' object has no attribute 'is_local'",
        sampleState) :=
  delete_video_attribute_error sampleState 1 sampleVideo (by decide)

/-! ## Project deletion (`main.py` 622-640, `models.py` 15-26)

`main.py` 633 awaits `db.delete_project(session, project_id)`, but
`database.py` in the source tree defines no project CRUD functions at
all; the database-level `delete_project` is code of this repository
that is missing from the tree. -/

/-- One row of the `projects` table (`models.py` 15-26). -/
structure Project where
  id : Nat
  name : String
  description : Option String
  created_at : Nat
  updated_at : Nat
deriving DecidableEq, Repr

/-- Database rows relevant to project deletion. -/
structure ProjectState where
  projects : List Project
  videos : List Video
  annotations : List Annotation
deriving DecidableEq, Repr

/-- Modelled from the spec: `db.delete_project` (called at `main.py`
633) is absent from `database.py`.  Per the spec ("deleting it detaches
(does not delete) its videos") and the handler's docstring (`main.py`
627: "sets project_id to null for associated videos"), it nulls the
`project_id` of the project's videos and removes only the project
row. -/
def db_delete_project (st : ProjectState) (pid : Nat) : ProjectState :=
  { st with
    projects := st.projects.filter (fun p => p.id ≠ pid)
    videos := st.videos.map (fun v =>
      if v.project_id = some pid then { v with project_id := none } else v) }

/-- The `delete_project` endpoint (`main.py` 622-640): 404 when the
project does not exist, otherwise delegate to the database-level
deletion. -/
def delete_project (st : ProjectState) (pid : Nat) : ApiResult × ProjectState :=
  match st.projects.find? (fun p => p.id = pid) with
  | none => (.httpError 404 "Project not found", st)
  | some _ => (.ok "Project deleted", db_delete_project st pid)

/-- C6: deleting an existing project removes the project row, keeps
every video (same count, and position by position every field except
the project reference is unchanged, the project reference of the
deleted project's videos becoming null), and leaves the annotations
untouched. -/
theorem delete_project_detaches_videos (st : ProjectState) (pid : Nat) (p : Project)
    (h : st.projects.find? (fun p => p.id = pid) = some p) :
    (delete_project st pid).1 = .ok "Project deleted"
    ∧ (∀ q ∈ ((delete_project st pid).2).projects, q.id ≠ pid)
    ∧ ((delete_project st pid).2).videos.length = st.videos.length
    ∧ (∀ (i : Nat) (v : Video), st.videos[i]? = some v →
        ∃ v' : Video, ((delete_project st pid).2).videos[i]? = some v'
          ∧ v'.id = v.id ∧ v'.filename = v.filename ∧ v'.filepath = v.filepath
          ∧ v'.duration = v.duration ∧ v'.file_size = v.file_size
          ∧ v'.mime_type = v.mime_type ∧ v'.batch_position = v.batch_position
          ∧ v'.uploaded_at = v.uploaded_at
          ∧ v'.project_id = (if v.project_id = some pid then none else v.project_id))
    ∧ ((delete_project st pid).2).annotations = st.annotations := by
  have hd : delete_project st pid = (.ok "Project deleted", db_delete_project st pid) := by
    simp [delete_project, h]
  rw [hd]
  refine ⟨rfl, ?_, ?_, ?_, rfl⟩
  · intro q hq
    simp only [db_delete_project, List.mem_filter] at hq
    simpa using hq.2
  · simp [db_delete_project]
  · intro i v hv
    refine ⟨if v.project_id = some pid then { v with project_id := none } else v, ?_, ?_⟩
    · simp [db_delete_project, List.getElem?_map, hv]
    · by_cases hpid : v.project_id = some pid <;> simp [hpid]

/-- A concrete project owning `sampleVideo`. -/
def sampleProject : Project where
  id := 4
  name := "glassblowing"
  description := none
  created_at := 0
  updated_at := 0

/-- A concrete state for the C6 witness: one project owning one video
that carries one annotation. -/
def sampleProjectState : ProjectState where
  projects := [sampleProject]
  videos := [{ sampleVideo with project_id := some 4 }]
  annotations := [sampleAnnotationRow]

/-- Witness for C6: deleting project 4 keeps the video and its
annotation and only nulls the video's project reference. -/
theorem delete_project_detaches_videos_witness :
    (delete_project sampleProjectState 4).1 = .ok "Project deleted"
    ∧ ((delete_project sampleProjectState 4).2).videos.length = 1
    ∧ (∃ v' : Video, ((delete_project sampleProjectState 4).2).videos[0]? = some v'
        ∧ v'.id = 1 ∧ v'.filename = "v.mp4" ∧ v'.filepath = "data/videos/v.mp4"
        ∧ v'.project_id = none)
    ∧ ((delete_project sampleProjectState 4).2).annotations = [sampleAnnotationRow] := by
  obtain ⟨h1, h2, h3, h4, h5⟩ :=
    delete_project_detaches_videos sampleProjectState 4 sampleProject (by decide)
  obtain ⟨v', hv1, hv2, hv3, hv4, _, _, _, _, _, hv10⟩ :=
    h4 0 { sampleVideo with project_id := some 4 } rfl
  refine ⟨h1, by rw [h3]; rfl, ⟨v', hv1, ?_, ?_, ?_, ?_⟩, h5⟩
  · rw [hv2]; rfl
  · rw [hv3]; rfl
  · rw [hv4]; rfl
  · rw [hv10]; rfl
